import Mathlib

/-
Verification of the binary-provisioning subsystem of the ai-rulez Python
launcher (build/python/ai_rulez/downloader.py), as a shallow embedding:
pure helpers become Lean functions, the retry loop becomes a recursive
function over the sequence of per-attempt environment behaviours, and the
filesystem / network effects are made explicit as inputs (cache state,
per-attempt download outcomes) and outputs (a run trace recording attempts,
sleeps, temporary files, and the installed payload).
-/

namespace AiRulez

/-- Python str.lower for one character (ASCII case folding, which is what the
platform/machine names in scope use). -/
def charLower (c : Char) : Char :=
  if ('A' ≤ c ∧ c ≤ 'Z') then Char.ofNat (c.toNat + 32) else c

/-- Python str.lower on the character sequence, as applied by get_platform to
platform.system() and platform.machine() (downloader.py lines 14-15). -/
def str_lower (s : String) : String :=
  String.mk (s.toList.map charLower)

/-- Python str.endswith on the character sequence, as used on archive member
names (downloader.py lines 99 and 110). -/
def str_endswith (s suff : String) : Bool :=
  List.isSuffixOf (suff.toList) (s.toList)

/-- platform_map of get_platform (downloader.py lines 18-22): dict.get on the
lowercased system name. -/
def platform_map (s : String) : Option String :=
  if s = ("darwin") then some ("darwin")
  else if s = ("linux") then some ("linux")
  else if s = ("windows") then some ("windows")
  else none

/-- arch_map of get_platform (downloader.py lines 25-32): dict.get on the
lowercased machine name. -/
def arch_map (m : String) : Option String :=
  if m = ("x86_64") then some ("amd64")
  else if m = ("amd64") then some ("amd64")
  else if m = ("arm64") then some ("arm64")
  else if m = ("aarch64") then some ("arm64")
  else if m = ("i386") then some ("386")
  else if m = ("i686") then some ("386")
  else none

/-- get_platform (downloader.py lines 12-44). The host introspection results
platform.system() and platform.machine() are passed in as the two string
inputs; a raised RuntimeError is embedded as Except.error with the message. -/
def get_platform (system machine : String) : Except String (String × String) :=
  match platform_map (str_lower system), arch_map (str_lower machine) with
  | some p, some a =>
    if p = ("windows") ∧ a = ("arm64") then
      Except.error ("Windows ARM64 is not supported")
    else
      Except.ok (p, a)
  | _, _ =>
    Except.error ("Unsupported platform: " ++ str_lower system ++ " " ++ str_lower machine)

/-- Binary file name chosen inside download_binary (downloader.py line 93). -/
def binary_name_for (platform_name : String) : String :=
  if platform_name = ("windows") then ("ai-rulez.exe") else ("ai-rulez")

/-- Cache path built by get_binary_path (downloader.py lines 133-140):
Path.home() / ".cache" / "ai-rulez" / ("ai-rulez" + ext). -/
def get_binary_path (home platform_name : String) : String :=
  home ++ "/.cache/ai-rulez/ai-rulez" ++
    (if platform_name = ("windows") then (".exe") else (""))

/-- One archive member as enumerated by zipfile.namelist / tarfile.getmembers
(downloader.py lines 98 and 109): a name and the byte content that
zip_ref.open / tar.extractfile would stream for it. -/
structure Entry where
  name : String
  content : List Nat
deriving DecidableEq

/-- Archive scan of download_binary (downloader.py lines 95-116). The zip and
the tar branch perform the same loop: take the first member whose name ends
with the binary name, write its content to the destination, and break; the
for/else raises "No binary found in archive" when no member matched. -/
def extract_executable (binary_name : String) : List Entry → Except String (List Nat)
  | [] => Except.error ("No binary found in archive")
  | e :: rest =>
    if str_endswith e.name binary_name then Except.ok e.content
    else extract_executable binary_name rest

/-- Behaviour of the environment for one download attempt: either urlopen
raises a network error, or it yields a response with an HTTP status and a
downloaded file of the given byte size whose archive members are the given
entries (the archive parse itself is assumed well formed). -/
inductive AttemptInput where
  | netError (msg : String)
  | http (status : Nat) (size : Nat) (entries : List Entry)

/-- Body of one iteration of the retry loop of download_binary (downloader.py
lines 69-120), from opening the connection to extraction: non-200 status
raises the HTTP status message (line 74), a zero-byte download raises "Downloaded
file is empty" (lines 86-87), and otherwise the archive scan runs. The ok
payload is the byte content written to dest_path. -/
def attemptOnce (binary_name : String) : AttemptInput → Except String (List Nat)
  | AttemptInput.netError msg => Except.error msg
  | AttemptInput.http status size entries =>
    if status ≠ 200 then Except.error ("HTTP " ++ toString status)
    else if size = 0 then Except.error ("Downloaded file is empty")
    else extract_executable binary_name entries

/-- max_retries constant of download_binary (downloader.py line 60). -/
def max_retries : Nat := 3

/-- Initial retry_delay of download_binary, in seconds (downloader.py line 61). -/
def initial_retry_delay : Nat := 5

/-- Cap applied when the delay is doubled (downloader.py line 130). -/
def delay_cap : Nat := 30

/-- Observable trace of one download_binary call: the final outcome (the
aggregated error of line 127, or the installed payload), the number of
attempts entered, the sequence of time.sleep delays (line 67), and how many
NamedTemporaryFile instances were created (line 69) and unlinked (line 119). -/
structure RunResult where
  result : Except String (List Nat)
  attempts : Nat
  sleeps : List Nat
  tempsCreated : Nat
  tempsRemoved : Nat

/-- Retry loop of download_binary (downloader.py lines 63-130), recursing over
the list of per-attempt environment behaviours (one element per iteration of
the Python range loop over attempts), carrying the attempt counter, the
current retry_delay, and the trace accumulators. Before each attempt other
than the first, the loop sleeps for the current retry_delay (lines 65-67);
each attempt creates one temporary file (line 69); a successful attempt
unlinks it and returns (lines 119-120); a failing final attempt raises the
aggregated error (lines 126-127); otherwise the delay is doubled with the cap
(line 130) and the loop retries, leaving the temporary file of the attempt behind
(no unlink on the error path). -/
def download_go (binary_name : String) :
    List AttemptInput → Nat → Nat → List Nat → Nat → Nat → RunResult
  | [], attempt, _, sleeps, created, removed =>
    { result := Except.error ("no attempts made"), attempts := attempt,
      sleeps := sleeps, tempsCreated := created, tempsRemoved := removed }
  | inp :: rest, attempt, retry_delay, sleeps, created, removed =>
    let sleeps1 := if 0 < attempt then sleeps ++ [retry_delay] else sleeps
    let created1 := created + 1
    match attemptOnce binary_name inp with
    | Except.ok content =>
      { result := Except.ok content, attempts := attempt + 1, sleeps := sleeps1,
        tempsCreated := created1, tempsRemoved := removed + 1 }
    | Except.error e =>
      if attempt = max_retries - 1 then
        { result := Except.error ("Failed to download binary after " ++
            toString max_retries ++ " attempts: " ++ e),
          attempts := attempt + 1, sleeps := sleeps1,
          tempsCreated := created1, tempsRemoved := removed }
      else
        download_go binary_name rest (attempt + 1)
          (min (retry_delay * 2) delay_cap) sleeps1 created1 removed

/-- download_binary (downloader.py lines 55-130) for a fixed binary name and
the three per-attempt environment behaviours of the range loop with
max_retries = 3. -/
def download_binary (binary_name : String) (a0 a1 a2 : AttemptInput) : RunResult :=
  download_go binary_name [a0, a1, a2] 0 initial_retry_delay [] 0 0

/-- State of the cache path as ensure_binary observes it (downloader.py lines
150-151): binary_path.exists() and os.access(binary_path, os.X_OK). The
nonEmpty flag and the version marker are part of the observable filesystem
state as well — the cache-validity condition of the spec mentions them — but the
code never reads them. -/
structure CacheState where
  pathExists : Bool
  executable : Bool
  nonEmpty : Bool
  markerVersion : Option String
deriving DecidableEq

/-- Outcome of one ensure_binary call (downloader.py lines 143-167): the
returned path string together with whether the download path was taken
(downloaded = false means the cached path was returned with no network
access), the sys.exit code of the except branch (line 167), or an exception
propagating out of ensure_binary uncaught. -/
inductive EnsureOutcome where
  | returned (path : String) (downloaded : Bool)
  | exited (code : Nat)
  | raised (msg : String)
deriving DecidableEq

/-- ensure_binary (downloader.py lines 143-167). get_binary_path runs first
(line 147) and calls get_platform, whose RuntimeError would propagate — the
try block only starts at line 158; the cache check returns the cached path
when it exists and is executable (lines 150-152); otherwise download_binary
and os.chmod run inside the try, any exception of theirs leading to
sys.exit(1) (lines 163-167). chmod_ok tells whether os.chmod succeeds. -/
def ensure_binary (system machine home _version : String) (cache : CacheState)
    (a0 a1 a2 : AttemptInput) (chmod_ok : Bool) : EnsureOutcome :=
  match get_platform system machine with
  | Except.error msg => EnsureOutcome.raised msg
  | Except.ok (platform_name, _) =>
    let binary_path := get_binary_path home platform_name
    if cache.pathExists && cache.executable then
      EnsureOutcome.returned binary_path false
    else
      match (download_binary (binary_name_for platform_name) a0 a1 a2).result with
      | Except.ok _ =>
        if chmod_ok then EnsureOutcome.returned binary_path true
        else EnsureOutcome.exited 1
      | Except.error _ => EnsureOutcome.exited 1

/-- Boolean success projection for the embedded Except results. -/
def exceptIsOk {α : Type} : Except String α → Bool
  | Except.ok _ => true
  | Except.error _ => false

/-- Boolean test for the uncaught-exception outcome of ensure_binary. -/
def outcome_raises : EnsureOutcome → Bool
  | EnsureOutcome.raised _ => true
  | _ => false

/-- Modelled from the spec: the four-condition cache-validity predicate of
spec sections 3 and 4.7 — cache path exists, is executable, is non-empty, and
the version marker records the currently expected version — which the claims
compare against the check ensure_binary actually performs. -/
def claimed_cache_valid (version : String) (cache : CacheState) : Bool :=
  cache.pathExists && cache.executable && cache.nonEmpty &&
    (cache.markerVersion == some version)

/-- Modelled from the spec: VersionCache.is_current (spec section 4.6), the
version-marker read that is missing from the src downloader (only its tests
reference is_binary_current_version): marker absence is "not current",
otherwise verbatim string comparison with the expected version. The marker
file content is the Option String state. -/
def is_current (expected : String) (marker : Option String) : Bool :=
  match marker with
  | none => false
  | some v => v == expected

/-- Modelled from the spec: VersionCache.record_current (spec section 4.6),
the version-marker write that is missing from the src downloader (only its
tests reference update_cache_version): overwrites the marker with the given
version string. -/
def record_current (version : String) (_marker : Option String) : Option String :=
  some version

/-- Characterization of the platform_map lookup: it hits exactly the three
supported operating-system names. -/
theorem platform_map_isSome_iff (s : String) :
    (platform_map s).isSome = true ↔
      (s = ("darwin") ∨ s = ("linux") ∨ s = ("windows")) := by
  unfold platform_map
  split_ifs <;> simp_all

/-- Characterization of the arch_map lookup: it hits exactly the six supported
machine names. -/
theorem arch_map_isSome_iff (m : String) :
    (arch_map m).isSome = true ↔
      (m = ("x86_64") ∨ m = ("amd64") ∨ m = ("arm64") ∨
       m = ("aarch64") ∨ m = ("i386") ∨ m = ("i686")) := by
  unfold arch_map
  split_ifs <;> simp_all

/-- The platform_map lookup yields "windows" only for the input "windows". -/
theorem platform_map_eq_windows_iff (s : String) :
    platform_map s = some ("windows") ↔ s = ("windows") := by
  unfold platform_map
  split_ifs <;> simp_all

/-- The arch_map lookup yields "arm64" exactly for "arm64" and "aarch64". -/
theorem arch_map_eq_arm64_iff (m : String) :
    arch_map m = some ("arm64") ↔ (m = ("arm64") ∨ m = ("aarch64")) := by
  unfold arch_map
  split_ifs <;> simp_all

/-- Success characterization of get_platform in terms of the two lookup maps:
it returns a pair exactly when both lookups hit and the mapped pair is not
(windows, arm64). -/
theorem get_platform_ok_char (system machine : String) :
    exceptIsOk (get_platform system machine) = true ↔
      ((platform_map (str_lower system)).isSome = true ∧
       (arch_map (str_lower machine)).isSome = true ∧
       ¬(platform_map (str_lower system) = some ("windows") ∧
         arch_map (str_lower machine) = some ("arm64"))) := by
  unfold get_platform
  cases hp : platform_map (str_lower system) with
  | none => simp [exceptIsOk]
  | some p =>
    cases ha : arch_map (str_lower machine) with
    | none => simp [exceptIsOk]
    | some a =>
      by_cases h : p = ("windows") ∧ a = ("arm64")
      · simp [h, exceptIsOk]
      · simp [h, exceptIsOk]

/-- C7: archive extraction scans the entries in order and yields the content
of the first entry whose name ends with the executable name (so an executable
nested under a directory inside the archive is found); when the name of no entry
ends with the executable name it fails with the "No binary found in archive"
error instead of succeeding silently. Stated as: extract_executable agrees
with List.find? (the first entry satisfying the ends-with test), returning
the content of that entry on a hit and the error when there is none. -/
theorem C7_extract_first_match (binary_name : String) (entries : List Entry) :
    extract_executable binary_name entries =
      match List.find? (fun e => str_endswith e.name binary_name) entries with
      | some e => Except.ok e.content
      | none => Except.error ("No binary found in archive") := by
  induction entries with
  | nil => rfl
  | cons e rest ih =>
    cases h : str_endswith e.name binary_name with
    | true =>
      simp [extract_executable, List.find?_cons_of_pos, h]
    | false =>
      simp [extract_executable, List.find?_cons_of_neg, h, ih]

/-- C8: platform resolution succeeds with a valid (os, arch) pair exactly
when the lowercased host system string has a platform_map entry, the
lowercased machine string has an arch_map entry, and the mapped pair is not
(windows, arm64); in every other case it fails with an unsupported-platform
error (the only non-ok outcomes of get_platform are the two raised
RuntimeError messages). -/
theorem C8_platform_resolution (system machine : String) :
    exceptIsOk (get_platform system machine) = true ↔
      ((platform_map (str_lower system)).isSome = true ∧
       (arch_map (str_lower machine)).isSome = true ∧
       ¬(platform_map (str_lower system) = some ("windows") ∧
         arch_map (str_lower machine) = some ("arm64"))) :=
  get_platform_ok_char system machine

/-- C10: get_platform succeeds exactly when the lowercased system string is
one of darwin, linux, windows and the lowercased machine string is one of
x86_64, amd64, arm64, aarch64, i386, i686, excluding the combinations that
map to (windows, arm64) — namely windows with arm64 or aarch64; and the
machine mapping sends x86_64 and amd64 to amd64, arm64 and aarch64 to arm64,
i386 and i686 to 386, while any other machine string such as armv7l is
rejected. -/
theorem C10_get_platform_mapping (system machine : String) :
    (exceptIsOk (get_platform system machine) = true ↔
      ((str_lower system = ("darwin") ∨ str_lower system = ("linux") ∨
        str_lower system = ("windows")) ∧
       (str_lower machine = ("x86_64") ∨ str_lower machine = ("amd64") ∨
        str_lower machine = ("arm64") ∨ str_lower machine = ("aarch64") ∨
        str_lower machine = ("i386") ∨ str_lower machine = ("i686")) ∧
       ¬(str_lower system = ("windows") ∧
         (str_lower machine = ("arm64") ∨ str_lower machine = ("aarch64"))))) ∧
    arch_map ("x86_64") = some ("amd64") ∧ arch_map ("amd64") = some ("amd64") ∧
    arch_map ("arm64") = some ("arm64") ∧ arch_map ("aarch64") = some ("arm64") ∧
    arch_map ("i386") = some ("386") ∧ arch_map ("i686") = some ("386") ∧
    arch_map ("armv7l") = none ∧
    exceptIsOk (get_platform ("linux") ("armv7l")) = false := by
  refine ⟨?_, rfl, rfl, rfl, rfl, rfl, rfl, rfl, rfl⟩
  rw [get_platform_ok_char, platform_map_isSome_iff, arch_map_isSome_iff,
    platform_map_eq_windows_iff, arch_map_eq_arm64_iff]

/-- C3: the version cache is monotonic in the version — is_current v is false
on the absent marker, true immediately after record_current v, and false
again after record_current v2 for v2 different from v, by verbatim string
comparison. The marker operations are modelled from the spec because the
version-cache code is absent from the src downloader. -/
theorem C3_version_cache_monotonic (v v2 : String) (marker1 marker2 : Option String)
    (h : v2 ≠ v) :
    is_current v none = false ∧
    is_current v (record_current v marker1) = true ∧
    is_current v (record_current v2 marker2) = false := by
  refine ⟨rfl, ?_, ?_⟩
  · simp [is_current, record_current]
  · simp [is_current, record_current, h]

/-- Witness for C3 at the concrete versions 1.0.0 and 2.0.0 and concrete
marker states. -/
theorem C3_version_cache_monotonic_witness :
    is_current ("1.0.0") none = false ∧
    is_current ("1.0.0") (record_current ("1.0.0") none) = true ∧
    is_current ("1.0.0") (record_current ("2.0.0") (some ("1.0.0"))) = false :=
  C3_version_cache_monotonic ("1.0.0") ("2.0.0") none (some ("1.0.0")) (by decide)

/-- Full trace of a download_binary run in which all three attempts fail: the
single aggregated error names the last underlying cause, three attempts run,
the two inter-attempt sleeps are 10 then 20 seconds (the delay is doubled
before the sleep, so the initial 5 is never slept), three temporary files are
created and none is removed. -/
theorem download_all_fail_eq (binary_name : String) (a0 a1 a2 : AttemptInput)
    (e0 e1 e2 : String)
    (h0 : attemptOnce binary_name a0 = Except.error e0)
    (h1 : attemptOnce binary_name a1 = Except.error e1)
    (h2 : attemptOnce binary_name a2 = Except.error e2) :
    download_binary binary_name a0 a1 a2 =
      { result := Except.error ("Failed to download binary after " ++
          toString max_retries ++ " attempts: " ++ e2),
        attempts := 3, sleeps := [10, 20], tempsCreated := 3, tempsRemoved := 0 } := by
  simp [download_binary, download_go, h0, h1, h2, max_retries,
    initial_retry_delay, delay_cap]

/-- C4 counterexample: at the concrete all-failing input (every attempt is a
network error), the inter-attempt sleeps of download_binary are 10 and 20
seconds — the first sleep is not the claimed initial delay of 5 seconds,
because the code doubles retry_delay before sleeping, never sleeping the
initial 5. -/
theorem C4_first_delay_cex :
    (download_binary ("ai-rulez") (AttemptInput.netError ("connection refused"))
      (AttemptInput.netError ("connection refused"))
      (AttemptInput.netError ("connection refused"))).sleeps = [10, 20] ∧
    initial_retry_delay = 5 ∧
    List.head? (download_binary ("ai-rulez") (AttemptInput.netError ("connection refused"))
      (AttemptInput.netError ("connection refused"))
      (AttemptInput.netError ("connection refused"))).sleeps ≠ some initial_retry_delay := by
  exact ⟨rfl, rfl, by decide⟩

/-- C4 (amended): when every attempt of a download_binary call fails, exactly
max_retries = 3 sequential attempts run and a single aggregated error naming
the last underlying cause is raised; between consecutive attempts the current
delay is first doubled, capped at 30 seconds, and then slept, so starting
from the initial value of 5 seconds the inter-attempt delays are 10 then 20
seconds, non-decreasing up to the cap. -/
theorem C4_retry_schedule (binary_name : String) (a0 a1 a2 : AttemptInput)
    (e0 e1 e2 : String)
    (h0 : attemptOnce binary_name a0 = Except.error e0)
    (h1 : attemptOnce binary_name a1 = Except.error e1)
    (h2 : attemptOnce binary_name a2 = Except.error e2) :
    download_binary binary_name a0 a1 a2 =
      { result := Except.error ("Failed to download binary after " ++
          toString max_retries ++ " attempts: " ++ e2),
        attempts := 3, sleeps := [10, 20], tempsCreated := 3, tempsRemoved := 0 } :=
  download_all_fail_eq binary_name a0 a1 a2 e0 e1 e2 h0 h1 h2

/-- Witness for C4 at a concrete unreachable-host input: each attempt fails
with the same network error and the aggregated failure is observed. -/
theorem C4_retry_schedule_witness :
    download_binary ("ai-rulez") (AttemptInput.netError ("unreachable host"))
        (AttemptInput.netError ("unreachable host"))
        (AttemptInput.netError ("unreachable host")) =
      { result := Except.error ("Failed to download binary after " ++
          toString max_retries ++ " attempts: " ++ ("unreachable host")),
        attempts := 3, sleeps := [10, 20], tempsCreated := 3, tempsRemoved := 0 } :=
  C4_retry_schedule ("ai-rulez") (AttemptInput.netError ("unreachable host"))
    (AttemptInput.netError ("unreachable host"))
    (AttemptInput.netError ("unreachable host"))
    ("unreachable host") ("unreachable host") ("unreachable host") rfl rfl rfl

/-- C5 counterexample: a call whose first attempt fails on a network error and
whose second attempt succeeds returns successfully, yet it created two
temporary files and removed only the second — the temporary file of the
failed first attempt is left behind, refuting the claim that every temporary
file the call creates is removed before it returns. -/
theorem C5_temp_leak_cex :
    (download_binary ("ai-rulez") (AttemptInput.netError ("timeout"))
      (AttemptInput.http 200 100 [{ name := ("bin/ai-rulez"), content := [7] }])
      (AttemptInput.netError ("unused"))).result = Except.ok [7] ∧
    (download_binary ("ai-rulez") (AttemptInput.netError ("timeout"))
      (AttemptInput.http 200 100 [{ name := ("bin/ai-rulez"), content := [7] }])
      (AttemptInput.netError ("unused"))).tempsCreated = 2 ∧
    (download_binary ("ai-rulez") (AttemptInput.netError ("timeout"))
      (AttemptInput.http 200 100 [{ name := ("bin/ai-rulez"), content := [7] }])
      (AttemptInput.netError ("unused"))).tempsRemoved = 1 ∧
    (2 : Nat) ≠ 1 :=
  ⟨rfl, rfl, rfl, by decide⟩

/-- C5 (amended): download_binary creates one temporary file per attempt it
enters and removes exactly one of them — the one of the final, successful
attempt — before returning successfully; on permanent failure it removes
none. Temporary files of failed attempts are always left behind. -/
theorem C5_temp_cleanup (binary_name : String) (a0 a1 a2 : AttemptInput) :
    (download_binary binary_name a0 a1 a2).tempsCreated =
      (download_binary binary_name a0 a1 a2).attempts ∧
    (download_binary binary_name a0 a1 a2).tempsRemoved =
      (if exceptIsOk (download_binary binary_name a0 a1 a2).result = true
       then 1 else 0) := by
  cases h0 : attemptOnce binary_name a0 with
  | ok c0 =>
    simp [download_binary, download_go, h0, exceptIsOk, max_retries,
      initial_retry_delay, delay_cap]
  | error e0 =>
    cases h1 : attemptOnce binary_name a1 with
    | ok c1 =>
      simp [download_binary, download_go, h0, h1, exceptIsOk, max_retries,
        initial_retry_delay, delay_cap]
    | error e1 =>
      cases h2 : attemptOnce binary_name a2 with
      | ok c2 =>
        simp [download_binary, download_go, h0, h1, h2, exceptIsOk, max_retries,
          initial_retry_delay, delay_cap]
      | error e2 =>
        simp [download_binary, download_go, h0, h1, h2, exceptIsOk, max_retries,
          initial_retry_delay, delay_cap]

/-- C6 counterexample: when every attempt delivers a well-formed, non-empty
HTTP 200 archive that contains no entry ending in the executable name, the
extraction failure is not surfaced after the first download — the retry loop
catches it and re-downloads the archive, consuming all three attempts. -/
theorem C6_extraction_retried_cex :
    (download_binary ("ai-rulez")
      (AttemptInput.http 200 50 [{ name := ("README.md"), content := [1] }])
      (AttemptInput.http 200 50 [{ name := ("README.md"), content := [1] }])
      (AttemptInput.http 200 50 [{ name := ("README.md"), content := [1] }])).attempts = 3 ∧
    (download_binary ("ai-rulez")
      (AttemptInput.http 200 50 [{ name := ("README.md"), content := [1] }])
      (AttemptInput.http 200 50 [{ name := ("README.md"), content := [1] }])
      (AttemptInput.http 200 50 [{ name := ("README.md"), content := [1] }])).result =
      Except.error ("Failed to download binary after " ++ toString max_retries ++
        " attempts: " ++ ("No binary found in archive")) ∧
    (3 : Nat) ≠ 1 :=
  ⟨rfl, rfl, by decide⟩

/-- C6 (amended): an archive downloaded successfully (HTTP 200, non-empty)
but containing no entry whose name ends with the executable name raises the
"No binary found in archive" error inside the same try/except as the download
failures, so the retry loop re-downloads the archive on every remaining
attempt and, after max_retries = 3 attempts, surfaces the aggregated error
naming the extraction failure. -/
theorem C6_extraction_retried (binary_name : String) (s0 s1 s2 : Nat)
    (l0 l1 l2 : List Entry)
    (hs0 : s0 ≠ 0) (hs1 : s1 ≠ 0) (hs2 : s2 ≠ 0)
    (hx0 : extract_executable binary_name l0 = Except.error ("No binary found in archive"))
    (hx1 : extract_executable binary_name l1 = Except.error ("No binary found in archive"))
    (hx2 : extract_executable binary_name l2 = Except.error ("No binary found in archive")) :
    download_binary binary_name (AttemptInput.http 200 s0 l0)
        (AttemptInput.http 200 s1 l1) (AttemptInput.http 200 s2 l2) =
      { result := Except.error ("Failed to download binary after " ++
          toString max_retries ++ " attempts: " ++ ("No binary found in archive")),
        attempts := 3, sleeps := [10, 20], tempsCreated := 3, tempsRemoved := 0 } :=
  download_all_fail_eq binary_name _ _ _
    ("No binary found in archive") ("No binary found in archive")
    ("No binary found in archive")
    (by simp [attemptOnce, hs0, hx0])
    (by simp [attemptOnce, hs1, hx1])
    (by simp [attemptOnce, hs2, hx2])

/-- Witness for C6 at a concrete packaging-mismatch archive containing only a
README entry. -/
theorem C6_extraction_retried_witness :
    download_binary ("ai-rulez")
        (AttemptInput.http 200 50 [{ name := ("docs/README.md"), content := [1] }])
        (AttemptInput.http 200 50 [{ name := ("docs/README.md"), content := [1] }])
        (AttemptInput.http 200 50 [{ name := ("docs/README.md"), content := [1] }]) =
      { result := Except.error ("Failed to download binary after " ++
          toString max_retries ++ " attempts: " ++ ("No binary found in archive")),
        attempts := 3, sleeps := [10, 20], tempsCreated := 3, tempsRemoved := 0 } :=
  C6_extraction_retried ("ai-rulez") 50 50 50
    [{ name := ("docs/README.md"), content := [1] }]
    [{ name := ("docs/README.md"), content := [1] }]
    [{ name := ("docs/README.md"), content := [1] }]
    (by decide) (by decide) (by decide) rfl rfl rfl

/-- C1: download_binary performs no checksum verification — its behaviour does
not depend on any digest or manifest (neither appears among its inputs), and
for every payload whatsoever a successful HTTP 200, non-empty archive
containing a matching entry is extracted and installed as-is on the first
attempt. In particular an archive whose SHA-256 digest disagrees with the
checksum manifest entry for its filename is installed rather than rejected:
no ChecksumMismatchError path exists in the code. -/
theorem C1_no_checksum_verification (payload : List Nat) :
    (download_binary ("ai-rulez")
      (AttemptInput.http 200 100 [{ name := ("ai-rulez"), content := payload }])
      (AttemptInput.netError ("unused")) (AttemptInput.netError ("unused"))).result =
      Except.ok payload := rfl

/-- C2: ensure_binary returns the cached path with no network access as soon
as the cache path exists and is executable — even when the cached file is
empty and the version marker records a different version than the expected
one, a state in which the four-condition cache validity of the spec fails and a
download is required. The returned flag false records that the download path
was never entered. -/
theorem C2_stale_empty_cache_hit :
    ensure_binary ("linux") ("x86_64") ("/home/user") ("2.0.0")
        { pathExists := true, executable := true, nonEmpty := false,
          markerVersion := some ("1.0.0") }
        (AttemptInput.netError ("network unreachable"))
        (AttemptInput.netError ("network unreachable"))
        (AttemptInput.netError ("network unreachable")) true =
      EnsureOutcome.returned ("/home/user/.cache/ai-rulez/ai-rulez") false ∧
    claimed_cache_valid ("2.0.0")
        { pathExists := true, executable := true, nonEmpty := false,
          markerVersion := some ("1.0.0") } = false :=
  ⟨rfl, rfl⟩

/-- C9 counterexample: on an unsupported host (system "sunos"), ensure_binary
neither returns a path nor exits with code 1 — the RuntimeError raised by
get_platform inside get_binary_path propagates to the caller, because it is
raised before the try block starts. -/
theorem C9_unsupported_raises_cex :
    outcome_raises (ensure_binary ("sunos") ("x86_64") ("/home/u") ("1.0.0")
        { pathExists := false, executable := false, nonEmpty := false,
          markerVersion := none }
        (AttemptInput.netError ("x")) (AttemptInput.netError ("x"))
        (AttemptInput.netError ("x")) true) = true ∧
    ensure_binary ("sunos") ("x86_64") ("/home/u") ("1.0.0")
        { pathExists := false, executable := false, nonEmpty := false,
          markerVersion := none }
        (AttemptInput.netError ("x")) (AttemptInput.netError ("x"))
        (AttemptInput.netError ("x")) true =
      EnsureOutcome.raised ("Unsupported platform: sunos x86_64") :=
  ⟨rfl, rfl⟩

/-- C9 (amended): whenever platform resolution succeeds, ensure_binary never
propagates an exception — it either returns the string form of the fixed
cache path (with the cached binary, or after a successful download and
chmod), or, on any provisioning failure inside the try block (download,
extraction, or chmod), prints the diagnostics and terminates with exit code
1; but when platform resolution fails, the RuntimeError is raised while
computing the cache path, before the try block, and propagates to the
caller. -/
theorem C9_no_raise_when_supported (system machine home version : String)
    (cache : CacheState) (a0 a1 a2 : AttemptInput) (chmod_ok : Bool)
    (pa : String × String)
    (h : get_platform system machine = Except.ok pa) :
    ensure_binary system machine home version cache a0 a1 a2 chmod_ok =
        EnsureOutcome.returned (get_binary_path home pa.1) false ∨
    ensure_binary system machine home version cache a0 a1 a2 chmod_ok =
        EnsureOutcome.returned (get_binary_path home pa.1) true ∨
    ensure_binary system machine home version cache a0 a1 a2 chmod_ok =
        EnsureOutcome.exited 1 := by
  obtain ⟨p, a⟩ := pa
  simp only [ensure_binary, h]
  by_cases hc : (cache.pathExists && cache.executable) = true
  · simp [hc]
  · simp only [hc, if_neg, Bool.false_eq_true, if_false]
    cases hr : (download_binary (binary_name_for p) a0 a1 a2).result with
    | ok c =>
      cases chmod_ok with
      | true => simp
      | false => simp
    | error e => simp

/-- Witness for C9 on a supported platform with an empty cache and a failing
download: ensure_binary exits with code 1 rather than raising. -/
theorem C9_no_raise_when_supported_witness :
    ensure_binary ("linux") ("x86_64") ("/home/u") ("1.0.0")
        { pathExists := false, executable := false, nonEmpty := false,
          markerVersion := none }
        (AttemptInput.netError ("down")) (AttemptInput.netError ("down"))
        (AttemptInput.netError ("down")) true =
        EnsureOutcome.returned (get_binary_path ("/home/u") ("linux")) false ∨
    ensure_binary ("linux") ("x86_64") ("/home/u") ("1.0.0")
        { pathExists := false, executable := false, nonEmpty := false,
          markerVersion := none }
        (AttemptInput.netError ("down")) (AttemptInput.netError ("down"))
        (AttemptInput.netError ("down")) true =
        EnsureOutcome.returned (get_binary_path ("/home/u") ("linux")) true ∨
    ensure_binary ("linux") ("x86_64") ("/home/u") ("1.0.0")
        { pathExists := false, executable := false, nonEmpty := false,
          markerVersion := none }
        (AttemptInput.netError ("down")) (AttemptInput.netError ("down"))
        (AttemptInput.netError ("down")) true =
        EnsureOutcome.exited 1 :=
  C9_no_raise_when_supported ("linux") ("x86_64") ("/home/u") ("1.0.0")
    { pathExists := false, executable := false, nonEmpty := false,
      markerVersion := none }
    (AttemptInput.netError ("down")) (AttemptInput.netError ("down"))
    (AttemptInput.netError ("down")) true (("linux"), ("amd64")) rfl

end AiRulez
